import Mathlib

/-!
Shallow embedding of `clippy.cpp` (single-file Windows console program that
writes the clipboard bitmap to disk via WIC), together with theorems checking
the natural-language specification against it.

Modelling conventions:
- `HRESULT` is `Int` (the C type is a signed 32-bit integer; all values the
  program manipulates are small). `SUCCEEDED hr` is `0 ≤ hr`.
- Each external call (clipboard, COM, WIC) is an oracle: its result is a field
  of an environment record `Env` / `WriteEnv`, so `main` becomes a pure
  function of the parsed arguments and the environment.
- Standard output is a `List String`, one element per `cout` print statement
  (`RaiseError` prints exactly one element; probe mode prints `TRUE`/`FALSE`).
- Resource-lifecycle side effects are an event trace (`List Event`); an object
  creation event is emitted when the creating call succeeds, a release event
  when the corresponding `Release` executes.
- The local variable `hr` of `main` (clippy.cpp:178) is declared without an
  initializer; on the path where no bitmap is on the clipboard it is read
  before ever being assigned. The embedding makes that indeterminate residual
  value explicit as the environment field `hrInitial`.
- The resize computation (clippy.cpp:273-278) uses single-precision floats and
  a C cast to `UINT` that truncates toward zero. It is modelled as exact
  rational arithmetic followed by truncation, which agrees with the float
  computation whenever the float operations are exact (in particular at every
  concrete input used below).
-/

namespace Clippy

/-- Embeds the Windows `SUCCEEDED` macro: an `HRESULT` is a success iff it is
nonnegative as a signed 32-bit integer. -/
def SUCCEEDED (hr : Int) : Bool := decide (0 ≤ hr)

/-- Embeds the Windows `FAILED` macro. -/
def FAILED (hr : Int) : Bool := !SUCCEEDED hr

/-- The `E_FAIL` HRESULT, `0x80004005` as a signed 32-bit integer. -/
def E_FAIL : Int := -2147467259

/-- Uppercase hexadecimal digit for a value below 16. -/
def hexDigit (n : Nat) : Char :=
  if n < 10 then Char.ofNat (48 + n) else Char.ofNat (55 + n)

/-- Embeds the stream formatting in `RaiseError` (clippy.cpp:25): the HRESULT
printed as eight uppercase hex digits of its 32-bit two's-complement image
(iostream formats a negative signed value via its unsigned image). -/
def hex8 (hr : Int) : String :=
  String.mk (List.map (fun i => hexDigit ((hr % (2 : Int) ^ 32).toNat / 16 ^ i % 16))
    [7, 6, 5, 4, 3, 2, 1, 0])

/-- Embeds `RaiseError` (clippy.cpp:23-26): one print of the message followed
by the formatted HRESULT. -/
def raiseError (errorMessage : String) (hr : Int) : String :=
  errorMessage ++ ": HRESULT = 0x" ++ hex8 hr

/-- The two WIC container-format GUIDs the program can select
(`GUID_ContainerFormatPng` / `GUID_ContainerFormatJpeg`). -/
inductive ContainerFormat where
  | png
  | jpeg
  deriving DecidableEq, Repr

/-- Embeds the encoder selection at clippy.cpp:175:
`encoder == "png" ? GUID_ContainerFormatPng : GUID_ContainerFormatJpeg`. -/
def encoderIdOf (encoder : String) : ContainerFormat :=
  if encoder = "png" then ContainerFormat.png else ContainerFormat.jpeg

/-- Embeds the resized-output filename built at clippy.cpp:301:
`filename + "." + encoder`. -/
def resizedFilename (filename encoder : String) : String :=
  filename ++ "." ++ encoder

/-- Embeds the full-size-output filename built at clippy.cpp:263:
`filename + "_full." + encoder`. -/
def fullFilename (filename encoder : String) : String :=
  filename ++ "_full." ++ encoder

/-- Conversion of a C `int` to `UINT` (reduction modulo 2^32), used for
`output_width = max_width` at clippy.cpp:277. -/
def toUINT (x : Int) : Nat := (x % (2 : Int) ^ 32).toNat

/-- Round to nearest integer, ties to even — the rounding of IEEE-754
arithmetic, used to model the single-precision operations at
clippy.cpp:276-278. -/
def rne (x : ℚ) : ℤ :=
  if x - ⌊x⌋ < 1/2 then ⌊x⌋
  else if 1/2 < x - ⌊x⌋ then ⌊x⌋ + 1
  else if 2 ∣ ⌊x⌋ then ⌊x⌋ else ⌊x⌋ + 1

/-- The binary exponent of a positive rational: the unique `e` with
`2^e ≤ q < 2^(e+1)`, computed from the binary logarithms of numerator and
denominator. -/
def ratExp2 (q : ℚ) : ℤ :=
  if (2:ℚ) ^ ((Nat.log2 q.num.toNat : ℤ) - (Nat.log2 q.den : ℤ)) ≤ q
  then (Nat.log2 q.num.toNat : ℤ) - (Nat.log2 q.den : ℤ)
  else (Nat.log2 q.num.toNat : ℤ) - (Nat.log2 q.den : ℤ) - 1

/-- Correct rounding of a rational to IEEE-754 binary32: round to nearest,
ties to even, 24-bit significand. The exponent range is unbounded (no
overflow or subnormals): every value the program computes under the
hypotheses of the theorems below lies well inside the binary32 normal range,
where this model coincides with IEEE-754 single precision. A nonpositive
input is mapped to 0; in the source a nonpositive value can only arise from
a negative `max_width` or a zero-width bitmap, both of which make the final
`(UINT)` cast at clippy.cpp:278 undefined behavior. -/
def round32 (q : ℚ) : ℚ :=
  if q ≤ 0 then 0
  else (rne (q / 2 ^ (ratExp2 q - 23)) : ℚ) * 2 ^ (ratExp2 q - 23)

/-- Embeds `scaling_factor = (float)((float)max_width / (float)width)` at
clippy.cpp:276: both operands are converted to single precision and the
division is correctly rounded. -/
def scaling_factor (max_width : Int) (width : Nat) : ℚ :=
  round32 (round32 (max_width : ℚ) / round32 (width : ℚ))

/-- Embeds the resized-output height at clippy.cpp:278:
`(UINT)(scaling_factor * height)`. The multiplication converts `height` to
single precision and rounds the product once; the `(UINT)` cast truncates
toward zero. A product that is negative or at least `2^32` makes the C cast
undefined behavior; the model truncates it all the same. -/
def output_height (max_width : Int) (width height : Nat) : Nat :=
  (⌊round32 (scaling_factor max_width width * round32 (height : ℚ))⌋).toNat

/-- The `(output_width, output_height)` pair computed at clippy.cpp:273-278. -/
def resizedDims (max_width : Int) (width height : Nat) : Nat × Nat :=
  (toUINT max_width, output_height max_width width height)

/-- Modelled from the spec wording of section 8: the resized height claimed by
the specification, `round(H * max_width / W)` with true rounding to the
nearest integer. Stated separately from `output_height` (which embeds the
source) so the two can be compared. -/
def specRoundHeight (max_width : Int) (width height : Nat) : Int :=
  round ((height * max_width : ℚ) / (width : ℚ))

/-- Observable resource/lifecycle events of a run. Creation events are emitted
when the creating call succeeds; release events when `Release` executes.
`releaseBitmap` is declared so its absence can be stated: the source never
releases the WIC bitmap created at clippy.cpp:241. -/
inductive Event where
  | openClipboard
  | closeClipboard
  | coInit
  | coUninit
  | createFactory
  | releaseFactory
  | createBitmap
  | releaseBitmap
  | createScaler
  | releaseScaler
  | initScaler (width height : Nat)
  | createEncoder (fmt : ContainerFormat)
  | releaseEncoder
  | createStream
  | releaseStream
  | initStreamFromFile (filename : String)
  | createFrame
  | releaseFrame
  | setFrameSize (width height : Nat)
  deriving DecidableEq, Repr

/-- The parsed command-line arguments (clippy.cpp:160-173). -/
structure Args where
  max_width : Int
  write_full : Bool
  filename : String
  encoder : String
  test_clipboard_has_bitmap : Bool
  deriving DecidableEq, Repr

/-- Oracle results for the eleven WIC calls made by one invocation of
`WriteBitmapToDisk` (clippy.cpp:28-155), in source order. -/
structure WriteEnv where
  createEncoderHr : Int
  createStreamHr : Int
  initStreamHr : Int
  initEncoderHr : Int
  createFrameHr : Int
  initFrameHr : Int
  setSizeHr : Int
  setPixelFormatHr : Int
  writeSourceHr : Int
  commitFrameHr : Int
  commitEncoderHr : Int
  deriving DecidableEq, Repr

/-- Oracle results for the external calls made by `main` (clippy.cpp:157-331),
plus the indeterminate residual value `hrInitial` of the uninitialized local
`hr` (clippy.cpp:178). -/
structure Env where
  openClipboardOk : Bool
  hasBitmap : Bool
  hrInitial : Int
  coInitHr : Int
  createFactoryHr : Int
  createBitmapHr : Int
  getSizeHr : Int
  width : Nat
  height : Nat
  createScalerHr : Int
  initScalerHr : Int
  fullWrite : WriteEnv
  resizedWrite : WriteEnv
  deriving DecidableEq, Repr

/-- The `FreeCOM` epilogue of `WriteBitmapToDisk` (clippy.cpp:138-154):
release the stream, then the frame encoder, then the bitmap encoder, each only
if it was assigned. -/
def freeCOMWrite (hasStream hasFrame hasEncoder : Bool) : List Event :=
  (if hasStream then [Event.releaseStream] else []) ++
  (if hasFrame then [Event.releaseFrame] else []) ++
  (if hasEncoder then [Event.releaseEncoder] else [])

/-- The `FreeCOM`/`FreeClipboard` epilogue of `main` (clippy.cpp:308-327):
release the scaler and the factory if assigned, `CoUninitialize`, then
`CloseClipboard`. The WIC bitmap `ipBitmap` is not released here. -/
def mainCleanup (hasScaler hasFactory : Bool) : List Event :=
  (if hasScaler then [Event.releaseScaler] else []) ++
  (if hasFactory then [Event.releaseFactory] else []) ++
  [Event.coUninit, Event.closeClipboard]

/-- Embeds `WriteBitmapToDisk` (clippy.cpp:28-155). Returns the `HRESULT` the
function returns, the list of `RaiseError` prints it makes, and its event
trace. Each failing call short-circuits to `FreeCOM`. -/
def writeBitmapToDisk (filename : String) (encoderId : ContainerFormat)
    (output_width output_height : Nat) (w : WriteEnv) :
    Int × List String × List Event :=
  if FAILED w.createEncoderHr then
    (w.createEncoderHr,
     [raiseError "Could not create the PNG or JPG encoder: " w.createEncoderHr],
     freeCOMWrite false false false)
  else if FAILED w.createStreamHr then
    (w.createStreamHr,
     [raiseError "Could not create an IStream object: " w.createStreamHr],
     [Event.createEncoder encoderId] ++ freeCOMWrite false false true)
  else if FAILED w.initStreamHr then
    (w.initStreamHr,
     [raiseError "Failed to initialize a writeable stream: " w.initStreamHr],
     [Event.createEncoder encoderId, Event.createStream,
      Event.initStreamFromFile filename] ++ freeCOMWrite true false true)
  else if FAILED w.initEncoderHr then
    (w.initEncoderHr,
     [raiseError "Failed to initialize the bitmap encoder using the stream: " w.initEncoderHr],
     [Event.createEncoder encoderId, Event.createStream,
      Event.initStreamFromFile filename] ++ freeCOMWrite true false true)
  else if FAILED w.createFrameHr then
    (w.createFrameHr,
     [raiseError "Failed to create a new frame encoder using the bitmap encoder: " w.createFrameHr],
     [Event.createEncoder encoderId, Event.createStream,
      Event.initStreamFromFile filename] ++ freeCOMWrite true false true)
  else if FAILED w.initFrameHr then
    (w.initFrameHr,
     [raiseError "Failed to initialize the frame encoder: " w.initFrameHr],
     [Event.createEncoder encoderId, Event.createStream,
      Event.initStreamFromFile filename, Event.createFrame] ++ freeCOMWrite true true true)
  else if FAILED w.setSizeHr then
    (w.setSizeHr,
     [raiseError "Failed to set the output size for the frame encoder: " w.setSizeHr],
     [Event.createEncoder encoderId, Event.createStream,
      Event.initStreamFromFile filename, Event.createFrame,
      Event.setFrameSize output_width output_height] ++ freeCOMWrite true true true)
  else if FAILED w.setPixelFormatHr then
    (w.setPixelFormatHr,
     [raiseError "Failed to set the pixel format (WICPixelFormat24bppRGB) for the frame encoder: " w.setPixelFormatHr],
     [Event.createEncoder encoderId, Event.createStream,
      Event.initStreamFromFile filename, Event.createFrame,
      Event.setFrameSize output_width output_height] ++ freeCOMWrite true true true)
  else if FAILED w.writeSourceHr then
    (w.writeSourceHr,
     [raiseError "Failed to set the write source of the frame encoder to the bitmap scaler: " w.writeSourceHr],
     [Event.createEncoder encoderId, Event.createStream,
      Event.initStreamFromFile filename, Event.createFrame,
      Event.setFrameSize output_width output_height] ++ freeCOMWrite true true true)
  else if FAILED w.commitFrameHr then
    (w.commitFrameHr,
     [raiseError "Failed to commit the frame encoder: " w.commitFrameHr],
     [Event.createEncoder encoderId, Event.createStream,
      Event.initStreamFromFile filename, Event.createFrame,
      Event.setFrameSize output_width output_height] ++ freeCOMWrite true true true)
  else if FAILED w.commitEncoderHr then
    (w.commitEncoderHr,
     [raiseError "Failed to commit the bitmap encoder: " w.commitEncoderHr],
     [Event.createEncoder encoderId, Event.createStream,
      Event.initStreamFromFile filename, Event.createFrame,
      Event.setFrameSize output_width output_height] ++ freeCOMWrite true true true)
  else
    (w.commitEncoderHr, [],
     [Event.createEncoder encoderId, Event.createStream,
      Event.initStreamFromFile filename, Event.createFrame,
      Event.setFrameSize output_width output_height] ++ freeCOMWrite true true true)

/-- The full-size write call at clippy.cpp:263. -/
def fullWriteResult (args : Args) (env : Env) : Int × List String × List Event :=
  writeBitmapToDisk (fullFilename args.filename args.encoder)
    (encoderIdOf args.encoder) env.width env.height env.fullWrite

/-- The resized write call at clippy.cpp:301, with the dimensions computed at
clippy.cpp:273-278. -/
def resizedWriteResult (args : Args) (env : Env) : Int × List String × List Event :=
  writeBitmapToDisk (resizedFilename args.filename args.encoder)
    (encoderIdOf args.encoder)
    (resizedDims args.max_width env.width env.height).1
    (resizedDims args.max_width env.width env.height).2 env.resizedWrite

/-- Embeds the resized-image section of `main` (clippy.cpp:271-306), reached
after the optional full-size write: create the scaler, initialize it at the
computed dimensions, run the resized write; then the `FreeCOM` epilogue.
`outAcc`/`evAcc` are the output and events accumulated so far. -/
def resizedPhase (args : Args) (env : Env) (outAcc : List String)
    (evAcc : List Event) : Nat × List String × List Event :=
  if FAILED env.createScalerHr then
    (1, outAcc ++ [raiseError "Could not create a WIC Bitmap scaler object: " env.createScalerHr],
     evAcc ++ mainCleanup false true)
  else if FAILED env.initScalerHr then
    (1, outAcc ++ [raiseError "Could not initialize the WIC Bitmap scaler object InterpolationMode High Quality Cubic: " env.initScalerHr],
     evAcc ++ [Event.createScaler,
       Event.initScaler (resizedDims args.max_width env.width env.height).1
         (resizedDims args.max_width env.width env.height).2] ++ mainCleanup true true)
  else if FAILED (resizedWriteResult args env).1 then
    (1, outAcc ++ (resizedWriteResult args env).2.1 ++
       [raiseError "Could not write resized image to disk: " (resizedWriteResult args env).1],
     evAcc ++ [Event.createScaler,
       Event.initScaler (resizedDims args.max_width env.width env.height).1
         (resizedDims args.max_width env.width env.height).2] ++
       (resizedWriteResult args env).2.2 ++ mainCleanup true true)
  else
    (0, outAcc ++ (resizedWriteResult args env).2.1,
     evAcc ++ [Event.createScaler,
       Event.initScaler (resizedDims args.max_width env.width env.height).1
         (resizedDims args.max_width env.width env.height).2] ++
       (resizedWriteResult args env).2.2 ++ mainCleanup true true)

/-- Embeds `main` (clippy.cpp:157-331) as a function of the parsed arguments
and the environment, returning the process exit status, the list of prints to
standard output, and the event trace. On the no-bitmap path the returned
status is `SUCCEEDED(hr) ? 0 : 1` where `hr` has never been assigned, so it
depends on the residual `env.hrInitial` (clippy.cpp:178, 203-207, 330). In
probe mode `main` returns directly (clippy.cpp:196-200) without reaching
`FreeClipboard`. -/
def clippyMain (args : Args) (env : Env) : Nat × List String × List Event :=
  if !env.openClipboardOk then
    (1, [raiseError "Failed to open the clipboard object" E_FAIL], [])
  else if args.test_clipboard_has_bitmap then
    (0, [if env.hasBitmap then "TRUE" else "FALSE"], [Event.openClipboard])
  else if !env.hasBitmap then
    (if SUCCEEDED env.hrInitial then 0 else 1,
     [raiseError "No bitmap on clipboard" E_FAIL],
     [Event.openClipboard, Event.closeClipboard])
  else if FAILED env.coInitHr then
    (1, [raiseError "Failed to initialize COM: " env.coInitHr],
     [Event.openClipboard, Event.closeClipboard])
  else if FAILED env.createFactoryHr then
    (1, [raiseError "Failed to initialize WIC Imaging Factory object: " env.createFactoryHr],
     [Event.openClipboard, Event.coInit] ++ mainCleanup false false)
  else if FAILED env.createBitmapHr then
    (1, [raiseError "Failed to construct a WIC Bitmap object from the HBITMAP from the clipboard: " env.createBitmapHr],
     [Event.openClipboard, Event.coInit, Event.createFactory] ++ mainCleanup false true)
  else if FAILED env.getSizeHr then
    (1, [raiseError "Could not get the width and height of the WIC Bitmap object: " env.getSizeHr],
     [Event.openClipboard, Event.coInit, Event.createFactory, Event.createBitmap] ++
       mainCleanup false true)
  else if args.write_full then
    if FAILED (fullWriteResult args env).1 then
      (1, (fullWriteResult args env).2.1 ++
         [raiseError "Could not write full sized image to disk: " (fullWriteResult args env).1],
       [Event.openClipboard, Event.coInit, Event.createFactory, Event.createBitmap] ++
         (fullWriteResult args env).2.2 ++ mainCleanup false true)
    else
      resizedPhase args env (fullWriteResult args env).2.1
        ([Event.openClipboard, Event.coInit, Event.createFactory, Event.createBitmap] ++
          (fullWriteResult args env).2.2)
  else
    resizedPhase args env []
      [Event.openClipboard, Event.coInit, Event.createFactory, Event.createBitmap]

/-! Concrete fixtures: the default command line (clippy.cpp:161-165), the same
command line with the probe flag set, and environments in which every external
call succeeds, in which the clipboard holds no bitmap, and in which a selected
call fails. -/

/-- The default parsed command line: `max_width=800`, `write_full=false`,
`filename="image"`, `encoder="png"`, probe flag off. -/
def argsDefault : Args := ⟨800, false, "image", "png", false⟩

/-- The default command line with `test_clipboard_has_bitmap=true`. -/
def argsProbe : Args := ⟨800, false, "image", "png", true⟩

/-- A `WriteBitmapToDisk` environment in which every WIC call returns `S_OK`. -/
def wEnvOK : WriteEnv := ⟨0, 0, 0, 0, 0, 0, 0, 0, 0, 0, 0⟩

/-- Environment: clipboard opens, no bitmap is present, and the residual value
of the uninitialized `hr` happens to be `0` (a success code). -/
def envNoBitmap : Env := ⟨true, false, 0, 0, 0, 0, 0, 0, 0, 0, 0, wEnvOK, wEnvOK⟩

/-- Same as `envNoBitmap` but the residual value of the uninitialized `hr`
happens to be negative (a failure code). -/
def envNoBitmapNeg : Env := { envNoBitmap with hrInitial := -1 }

/-- Environment: a 1600x1200 bitmap is on the clipboard and every external
call succeeds. -/
def envSuccess : Env := ⟨true, true, 0, 0, 0, 0, 0, 1600, 1200, 0, 0, wEnvOK, wEnvOK⟩

/-- Environment: a 100x50 bitmap (already narrower than the default
`max_width=800`) and every external call succeeds. -/
def envUpscale : Env := { envSuccess with width := 100, height := 50 }

/-- Once the scaler is created, its `Initialize` call executes at the computed
output dimensions, on every branch of the resized phase. -/
theorem initScaler_mem_resizedPhase (args : Args) (env : Env)
    (outAcc : List String) (evAcc : List Event)
    (hsc : FAILED env.createScalerHr = false) :
    Event.initScaler (toUINT args.max_width)
      (output_height args.max_width env.width env.height) ∈
      (resizedPhase args env outAcc evAcc).2.2 := by
  unfold resizedPhase resizedDims
  split_ifs <;> simp_all

/-- Round-to-nearest of an integer is that integer. -/
theorem rne_intCast (n : ℤ) : rne (n : ℚ) = n := by
  unfold rne
  rw [Int.floor_intCast]
  norm_num

/-- Round-to-nearest is at most half an integer step away. -/
theorem rne_err (x : ℚ) : |(rne x : ℚ) - x| ≤ 1/2 := by
  have h0 := Int.floor_le x
  have h1 := Int.lt_floor_add_one x
  unfold rne
  by_cases a : x - ⌊x⌋ < 1/2
  · rw [if_pos a, abs_le]
    constructor <;> linarith
  · have a' : (1:ℚ)/2 ≤ x - ⌊x⌋ := not_lt.mp a
    rw [if_neg a]
    by_cases b : (1:ℚ)/2 < x - ⌊x⌋
    · rw [if_pos b, abs_le]
      constructor <;> push_cast <;> linarith
    · have b' : x - ⌊x⌋ ≤ 1/2 := not_lt.mp b
      rw [if_neg b]
      by_cases c : 2 ∣ ⌊x⌋
      · rw [if_pos c, abs_le]
        constructor <;> linarith
      · rw [if_neg c, abs_le]
        constructor <;> push_cast <;> linarith

/-- The exponent computed by `ratExp2` brackets a positive rational:
`2^e ≤ q < 2^(e+1)`. -/
theorem ratExp2_spec (q : ℚ) (hq : 0 < q) :
    (2:ℚ) ^ ratExp2 q ≤ q ∧ q < (2:ℚ) ^ (ratExp2 q + 1) := by
  have hnum : (0:ℤ) < q.num := Rat.num_pos.mpr hq
  have hn : 0 < q.num.toNat := by omega
  have hden : 0 < q.den := q.den_pos
  have hpd : (0:ℚ) < (q.den : ℚ) := by exact_mod_cast hden
  have hn1 : (2:ℚ) ^ ((Nat.log2 q.num.toNat : ℤ)) ≤ (q.num.toNat : ℚ) := by
    rw [zpow_natCast]
    exact_mod_cast Nat.log2_self_le hn.ne'
  have hn2 : (q.num.toNat : ℚ) < 2 ^ ((Nat.log2 q.num.toNat : ℤ) + 1) := by
    rw [show ((Nat.log2 q.num.toNat : ℤ) + 1) = ((Nat.log2 q.num.toNat + 1 : ℕ) : ℤ) by
      push_cast; ring, zpow_natCast]
    exact_mod_cast Nat.lt_log2_self
  have hd1 : (2:ℚ) ^ ((Nat.log2 q.den : ℤ)) ≤ (q.den : ℚ) := by
    rw [zpow_natCast]
    exact_mod_cast Nat.log2_self_le hden.ne'
  have hd2 : (q.den : ℚ) < 2 ^ ((Nat.log2 q.den : ℤ) + 1) := by
    rw [show ((Nat.log2 q.den : ℤ) + 1) = ((Nat.log2 q.den + 1 : ℕ) : ℤ) by
      push_cast; ring, zpow_natCast]
    exact_mod_cast Nat.lt_log2_self
  have hq_eq : q = (q.num.toNat : ℚ) / (q.den : ℚ) := by
    rw [show ((q.num.toNat : ℕ) : ℚ) = ((q.num.toNat : ℤ) : ℚ) by push_cast; ring,
      Int.toNat_of_nonneg hnum.le, Rat.num_div_den]
  have hlow : (2:ℚ) ^ ((Nat.log2 q.num.toNat : ℤ) - (Nat.log2 q.den : ℤ) - 1) ≤ q := by
    have h' : (2:ℚ) ^ ((Nat.log2 q.num.toNat : ℤ) - (Nat.log2 q.den : ℤ) - 1) ≤
        (q.num.toNat : ℚ) / (q.den : ℚ) := by
      rw [show ((Nat.log2 q.num.toNat : ℤ) - (Nat.log2 q.den : ℤ) - 1) =
        (Nat.log2 q.num.toNat : ℤ) - ((Nat.log2 q.den : ℤ) + 1) by ring,
        zpow_sub₀ (two_ne_zero)]
      exact div_le_div₀ (by positivity) hn1 (by positivity) hd2.le
    exact h'.trans_eq hq_eq.symm
  have hhigh : q < (2:ℚ) ^ ((Nat.log2 q.num.toNat : ℤ) - (Nat.log2 q.den : ℤ) + 1) := by
    have h' : (q.num.toNat : ℚ) / (q.den : ℚ) <
        (2:ℚ) ^ ((Nat.log2 q.num.toNat : ℤ) - (Nat.log2 q.den : ℤ) + 1) := by
      rw [show ((Nat.log2 q.num.toNat : ℤ) - (Nat.log2 q.den : ℤ) + 1) =
        ((Nat.log2 q.num.toNat : ℤ) + 1) - (Nat.log2 q.den : ℤ) by ring,
        zpow_sub₀ (two_ne_zero)]
      exact div_lt_div₀ hn2 hd1 (by positivity) (by positivity)
    exact lt_of_eq_of_lt hq_eq h'
  unfold ratExp2
  by_cases h : (2:ℚ) ^ ((Nat.log2 q.num.toNat : ℤ) - (Nat.log2 q.den : ℤ)) ≤ q
  · rw [if_pos h]
    exact ⟨h, hhigh⟩
  · rw [if_neg h]
    refine ⟨hlow, ?_⟩
    rw [show ((Nat.log2 q.num.toNat : ℤ) - (Nat.log2 q.den : ℤ) - 1 + 1) =
      (Nat.log2 q.num.toNat : ℤ) - (Nat.log2 q.den : ℤ) by ring]
    exact not_le.mp h

/-- A positive rational lies in exactly one binade. -/
theorem zpow_bracket_unique {q : ℚ} {e f : ℤ} (h1 : (2:ℚ) ^ e ≤ q)
    (h2 : q < 2 ^ (e + 1)) (h3 : (2:ℚ) ^ f ≤ q) (h4 : q < 2 ^ (f + 1)) :
    e = f := by
  by_contra hne
  rcases lt_or_gt_of_ne hne with hlt | hlt
  · have hstep : e + 1 ≤ f := hlt
    have : (2:ℚ) ^ (e + 1) ≤ 2 ^ f := zpow_le_zpow_right₀ (by norm_num) hstep
    linarith
  · have hstep : f + 1 ≤ e := hlt
    have : (2:ℚ) ^ (f + 1) ≤ 2 ^ e := zpow_le_zpow_right₀ (by norm_num) hstep
    linarith

/-- Evaluation rule for `round32` given any bracketing exponent. -/
theorem round32_eq_of_bracket (q : ℚ) (e : ℤ) (h1 : (2:ℚ) ^ e ≤ q)
    (h2 : q < 2 ^ (e + 1)) :
    round32 q = (rne (q / 2 ^ (e - 23)) : ℚ) * 2 ^ (e - 23) := by
  have hq : 0 < q := lt_of_lt_of_le (zpow_pos (by norm_num) e) h1
  obtain ⟨hs1, hs2⟩ := ratExp2_spec q hq
  have he : ratExp2 q = e := zpow_bracket_unique hs1 hs2 h1 h2
  unfold round32
  rw [if_neg (not_le.mpr hq), he]

/-- A dyadic rational with a 24-bit significand is a binary32 value: `round32`
fixes it. -/
theorem round32_dyadic (m t : ℤ) (h1 : 2 ^ 23 ≤ m) (h2 : m < 2 ^ 24) :
    round32 ((m : ℚ) * 2 ^ t) = (m : ℚ) * 2 ^ t := by
  have hm0 : (0:ℚ) < (m:ℚ) := by exact_mod_cast lt_of_lt_of_le (by norm_num) h1
  have hb1 : (2:ℚ) ^ (23 + t) ≤ (m : ℚ) * 2 ^ t := by
    rw [zpow_add₀ (two_ne_zero)]
    have hml : (2:ℚ) ^ (23:ℤ) ≤ (m:ℚ) := by exact_mod_cast h1
    exact mul_le_mul_of_nonneg_right hml (by positivity)
  have hb2 : (m : ℚ) * 2 ^ t < 2 ^ (23 + t + 1) := by
    rw [show (23 + t + 1 : ℤ) = 24 + t by ring, zpow_add₀ (two_ne_zero)]
    have hmr : (m:ℚ) < (2:ℚ) ^ (24:ℤ) := by exact_mod_cast h2
    exact mul_lt_mul_of_pos_right hmr (by positivity)
  rw [round32_eq_of_bracket _ (23 + t) hb1 hb2]
  have hd : (m : ℚ) * 2 ^ t / 2 ^ (23 + t - 23) = (m : ℚ) := by
    rw [show (23 + t - 23 : ℤ) = t by ring]
    field_simp
  rw [hd, rne_intCast, show (23 + t - 23 : ℤ) = t by ring]

/-- A positive natural below `2^24` is exactly representable in binary32. -/
theorem round32_natCast_small (n : ℕ) (h1 : 0 < n) (h2 : n < 2 ^ 24) :
    round32 (n : ℚ) = n := by
  have hl1 : 2 ^ Nat.log2 n ≤ n := Nat.log2_self_le h1.ne'
  have hl2 : n < 2 ^ (Nat.log2 n + 1) := Nat.lt_log2_self
  have hl23 : Nat.log2 n ≤ 23 := by
    by_contra hgt
    push_neg at hgt
    have : 2 ^ 24 ≤ 2 ^ Nat.log2 n := Nat.pow_le_pow_right (by norm_num) hgt
    omega
  have key := round32_dyadic ((n : ℤ) * 2 ^ (23 - Nat.log2 n)) ((Nat.log2 n : ℤ) - 23)
    ?_ ?_
  · rw [show ((((n : ℤ) * 2 ^ (23 - Nat.log2 n) : ℤ)) : ℚ) * 2 ^ ((Nat.log2 n : ℤ) - 23) =
      (n : ℚ) by
        push_cast
        rw [show ((Nat.log2 n : ℤ) - 23) = -(((23 - Nat.log2 n : ℕ)) : ℤ) by
          push_cast [Nat.cast_sub hl23]; ring, zpow_neg, zpow_natCast]
        field_simp] at key
    exact key
  · have : (2:ℤ) ^ 23 = 2 ^ Nat.log2 n * 2 ^ (23 - Nat.log2 n) := by
      rw [← pow_add]
      congr 1
      omega
    rw [this]
    have hcast : (2:ℤ) ^ Nat.log2 n ≤ (n : ℤ) := by exact_mod_cast hl1
    exact mul_le_mul_of_nonneg_right hcast (by positivity)
  · have : (2:ℤ) ^ 24 = 2 ^ (Nat.log2 n + 1) * 2 ^ (23 - Nat.log2 n) := by
      rw [← pow_add]
      congr 1
      omega
    rw [this]
    have hcast : (n : ℤ) < 2 ^ (Nat.log2 n + 1) := by exact_mod_cast hl2
    exact mul_lt_mul_of_pos_right hcast (by positivity)

/-- Nonpositive inputs are mapped to zero (only reachable through paths that
are undefined behavior in the source). -/
theorem round32_of_nonpos (q : ℚ) (h : q ≤ 0) : round32 q = 0 := by
  unfold round32
  rw [if_pos h]

/-- The standard two-sided half-ulp error bound: binary32 rounding moves a
positive value by at most `q / 2^24`. -/
theorem round32_close (q : ℚ) (hq : 0 < q) :
    q - q / 2 ^ 24 ≤ round32 q ∧ round32 q ≤ q + q / 2 ^ 24 := by
  obtain ⟨h1, h2⟩ := ratExp2_spec q hq
  have hr := round32_eq_of_bracket q (ratExp2 q) h1 h2
  have hp : (0:ℚ) < 2 ^ (ratExp2 q - 23) := zpow_pos (by norm_num) _
  have herr := rne_err (q / 2 ^ (ratExp2 q - 23))
  rw [abs_le] at herr
  have hs : q / 2 ^ (ratExp2 q - 23) * 2 ^ (ratExp2 q - 23) = q :=
    div_mul_cancel₀ q hp.ne'
  have hhalf : (2:ℚ) ^ (ratExp2 q - 23) / 2 ≤ q / 2 ^ 24 := by
    have e1 : (2:ℚ) ^ (ratExp2 q - 23) / 2 = 2 ^ ratExp2 q / 2 ^ (24:ℤ) := by
      rw [show (ratExp2 q - 23 : ℤ) = ratExp2 q - 24 + 1 by ring,
        zpow_add_one₀ (two_ne_zero), zpow_sub₀ (two_ne_zero)]
      ring
    rw [e1, show ((2:ℚ) ^ (24:ℤ)) = 2 ^ (24:ℕ) by rw [← zpow_natCast]; norm_num]
    gcongr
  constructor
  · rw [hr]
    have l1 : (q / 2 ^ (ratExp2 q - 23) - 1/2) * 2 ^ (ratExp2 q - 23) ≤
        (rne (q / 2 ^ (ratExp2 q - 23)) : ℚ) * 2 ^ (ratExp2 q - 23) :=
      mul_le_mul_of_nonneg_right (by linarith [herr.1]) hp.le
    have l2 : (q / 2 ^ (ratExp2 q - 23) - 1/2) * 2 ^ (ratExp2 q - 23) =
        q - 2 ^ (ratExp2 q - 23) / 2 := by
      rw [sub_mul, hs]
      ring
    linarith
  · rw [hr]
    have l1 : (rne (q / 2 ^ (ratExp2 q - 23)) : ℚ) * 2 ^ (ratExp2 q - 23) ≤
        (q / 2 ^ (ratExp2 q - 23) + 1/2) * 2 ^ (ratExp2 q - 23) :=
      mul_le_mul_of_nonneg_right (by linarith [herr.2]) hp.le
    have l2 : (q / 2 ^ (ratExp2 q - 23) + 1/2) * 2 ^ (ratExp2 q - 23) =
        q + 2 ^ (ratExp2 q - 23) / 2 := by
      rw [add_mul, hs]
      ring
    linarith

/-- Relative-error form of the upper rounding bound. -/
theorem round32_le (q : ℚ) (hq : 0 < q) : round32 q ≤ q * (1 + 1/2^24) := by
  have h := (round32_close q hq).2
  have e : q * (1 + 1/2^24) = q + q / 2 ^ 24 := by ring
  linarith

/-- Relative-error form of the lower rounding bound. -/
theorem le_round32 (q : ℚ) (hq : 0 < q) : q * (1 - 1/2^24) ≤ round32 q := by
  have h := (round32_close q hq).1
  have e : q * (1 - 1/2^24) = q - q / 2 ^ 24 := by ring
  linarith

/-- Rounding preserves positivity. -/
theorem round32_pos (q : ℚ) (hq : 0 < q) : 0 < round32 q := by
  have h := le_round32 q hq
  nlinarith

/-- Rounding never produces a negative value. -/
theorem round32_nonneg (q : ℚ) : 0 ≤ round32 q := by
  by_cases h : q ≤ 0
  · rw [round32_of_nonpos q h]
  · exact (round32_pos q (not_le.mp h)).le

/-- A zero height propagates to a zero output height. -/
theorem output_height_of_height_zero (max_width : Int) (width : Nat) :
    output_height max_width width 0 = 0 := by
  unfold output_height
  rw [show ((0:ℕ):ℚ) = (0:ℚ) by norm_num, round32_of_nonpos 0 le_rfl, mul_zero,
    round32_of_nonpos 0 le_rfl]
  norm_num

/-- The composed relative error of the resize computation: four correctly
rounded single-precision operations keep the product within a factor
`1 ± 2^-21` of the exact ratio `max_width * H / W`. -/
theorem float_height_bounds (mw W H : ℕ) (hmw : 0 < mw) (hW : 0 < W) (hH : 0 < H) :
    (mw * H : ℚ) / W * (1 - 1/2^21) ≤
      round32 (scaling_factor (mw : Int) W * round32 (H : ℚ)) ∧
    round32 (scaling_factor (mw : Int) W * round32 (H : ℚ)) ≤
      (mw * H : ℚ) / W * (1 + 1/2^21) := by
  have hmwQ : (0:ℚ) < (mw:ℚ) := by exact_mod_cast hmw
  have hWQ : (0:ℚ) < (W:ℚ) := by exact_mod_cast hW
  have hHQ : (0:ℚ) < (H:ℚ) := by exact_mod_cast hH
  have hu0 : (0:ℚ) < 1 - 1/2^24 := by norm_num
  have hu1 : (0:ℚ) < 1 + 1/2^24 := by norm_num
  have hsfeq : scaling_factor (mw : Int) W = round32 (round32 (mw:ℚ) / round32 (W:ℚ)) := by
    unfold scaling_factor
    norm_num
  have ha1 := le_round32 (mw:ℚ) hmwQ
  have ha2 := round32_le (mw:ℚ) hmwQ
  have ha0 := round32_pos (mw:ℚ) hmwQ
  have hb1 := le_round32 (W:ℚ) hWQ
  have hb2 := round32_le (W:ℚ) hWQ
  have hb0 := round32_pos (W:ℚ) hWQ
  have hc1 := le_round32 (H:ℚ) hHQ
  have hc2 := round32_le (H:ℚ) hHQ
  have hc0 := round32_pos (H:ℚ) hHQ
  have hq1 : 0 < round32 (mw:ℚ) / round32 (W:ℚ) := div_pos ha0 hb0
  have hsf1 := le_round32 _ hq1
  have hsf2 := round32_le _ hq1
  have hsf0 := round32_pos _ hq1
  have hp0 : 0 < round32 (round32 (mw:ℚ) / round32 (W:ℚ)) * round32 (H:ℚ) :=
    mul_pos hsf0 hc0
  have hpr1 := le_round32 _ hp0
  have hpr2 := round32_le _ hp0
  have hdiv_le : round32 (mw:ℚ) / round32 (W:ℚ) ≤
      ((mw:ℚ) * (1 + 1/2^24)) / ((W:ℚ) * (1 - 1/2^24)) :=
    div_le_div₀ (by positivity) ha2 (by positivity) hb1
  have hdiv_ge : ((mw:ℚ) * (1 - 1/2^24)) / ((W:ℚ) * (1 + 1/2^24)) ≤
      round32 (mw:ℚ) / round32 (W:ℚ) :=
    div_le_div₀ (by positivity) ha1 (by positivity) hb2
  have hXpos : (0:ℚ) ≤ (mw * H : ℚ) / W := by positivity
  constructor
  · have lower : (mw * H : ℚ) / W * ((1 - 1/2^24)^4 / (1 + 1/2^24)) ≤
        round32 (round32 (round32 (mw:ℚ) / round32 (W:ℚ)) * round32 (H:ℚ)) := by
      calc (mw * H : ℚ) / W * ((1 - 1/2^24)^4 / (1 + 1/2^24))
          = ((((mw:ℚ) * (1 - 1/2^24)) / ((W:ℚ) * (1 + 1/2^24)) * (1 - 1/2^24)) *
              ((H:ℚ) * (1 - 1/2^24))) * (1 - 1/2^24) := by
            field_simp
            ring
        _ ≤ ((round32 (mw:ℚ) / round32 (W:ℚ) * (1 - 1/2^24)) *
              ((H:ℚ) * (1 - 1/2^24))) * (1 - 1/2^24) := by gcongr
        _ ≤ ((round32 (mw:ℚ) / round32 (W:ℚ) * (1 - 1/2^24)) *
              round32 (H:ℚ)) * (1 - 1/2^24) := by gcongr
        _ ≤ (round32 (round32 (mw:ℚ) / round32 (W:ℚ)) * round32 (H:ℚ)) * (1 - 1/2^24) := by
            gcongr
        _ ≤ round32 (round32 (round32 (mw:ℚ) / round32 (W:ℚ)) * round32 (H:ℚ)) := hpr1
    have hfac : (1 - 1/2^21 : ℚ) ≤ (1 - 1/2^24)^4 / (1 + 1/2^24) := by
      rw [le_div_iff₀ (by norm_num)]
      norm_num
    rw [hsfeq]
    calc (mw * H : ℚ) / W * (1 - 1/2^21)
        ≤ (mw * H : ℚ) / W * ((1 - 1/2^24)^4 / (1 + 1/2^24)) := by
          exact mul_le_mul_of_nonneg_left hfac hXpos
      _ ≤ _ := lower
  · have upper : round32 (round32 (round32 (mw:ℚ) / round32 (W:ℚ)) * round32 (H:ℚ)) ≤
        (mw * H : ℚ) / W * ((1 + 1/2^24)^4 / (1 - 1/2^24)) := by
      calc round32 (round32 (round32 (mw:ℚ) / round32 (W:ℚ)) * round32 (H:ℚ))
          ≤ (round32 (round32 (mw:ℚ) / round32 (W:ℚ)) * round32 (H:ℚ)) * (1 + 1/2^24) :=
            hpr2
        _ ≤ ((round32 (mw:ℚ) / round32 (W:ℚ) * (1 + 1/2^24)) * round32 (H:ℚ)) *
              (1 + 1/2^24) := by gcongr
        _ ≤ ((round32 (mw:ℚ) / round32 (W:ℚ) * (1 + 1/2^24)) * ((H:ℚ) * (1 + 1/2^24))) *
              (1 + 1/2^24) := by gcongr
        _ ≤ ((((mw:ℚ) * (1 + 1/2^24)) / ((W:ℚ) * (1 - 1/2^24)) * (1 + 1/2^24)) *
              ((H:ℚ) * (1 + 1/2^24))) * (1 + 1/2^24) := by gcongr
        _ = (mw * H : ℚ) / W * ((1 + 1/2^24)^4 / (1 - 1/2^24)) := by
            field_simp
            ring
    have hfac : ((1 + 1/2^24 : ℚ))^4 / (1 - 1/2^24) ≤ 1 + 1/2^21 := by
      rw [div_le_iff₀ (by norm_num)]
      norm_num
    rw [hsfeq]
    calc round32 (round32 (round32 (mw:ℚ) / round32 (W:ℚ)) * round32 (H:ℚ))
        ≤ (mw * H : ℚ) / W * ((1 + 1/2^24)^4 / (1 - 1/2^24)) := upper
      _ ≤ (mw * H : ℚ) / W * (1 + 1/2^21) := mul_le_mul_of_nonneg_left hfac hXpos

/-! Concrete evaluations of the float pipeline at the counterexample
inputs. -/

/-- The scaled ratio at the 4x3 counterexample: all operations are exact. -/
theorem output_height_one_four_three : output_height 1 4 3 = 0 := by
  have r1 : round32 ((1:ℤ):ℚ) = 1 := by
    have := round32_natCast_small 1 (by norm_num) (by norm_num)
    simpa using this
  have r4 : round32 ((4:ℕ):ℚ) = 4 := by
    have := round32_natCast_small 4 (by norm_num) (by norm_num)
    simpa using this
  have r3 : round32 ((3:ℕ):ℚ) = 3 := by
    have := round32_natCast_small 3 (by norm_num) (by norm_num)
    simpa using this
  have rq : round32 ((1:ℚ)/4) = 1/4 := by
    have := round32_dyadic (2^23) (-25) (by norm_num) (by norm_num)
    rw [show (((2^23 : ℤ)) : ℚ) * 2 ^ (-25 : ℤ) = 1/4 by
      rw [zpow_neg, show ((25:ℤ)) = ((25:ℕ):ℤ) by norm_num, zpow_natCast]
      push_cast
      norm_num] at this
    exact this
  have rp : round32 ((3:ℚ)/4) = 3/4 := by
    have := round32_dyadic 12582912 (-24) (by norm_num) (by norm_num)
    rw [show ((12582912 : ℤ) : ℚ) * 2 ^ (-24 : ℤ) = 3/4 by
      rw [zpow_neg, show ((24:ℤ)) = ((24:ℕ):ℤ) by norm_num, zpow_natCast]
      push_cast
      norm_num] at this
    exact this
  unfold output_height scaling_factor
  rw [r1, r4, rq, r3, show ((1:ℚ)/4) * 3 = 3/4 by norm_num, rp]
  rw [Int.floor_eq_zero_iff.mpr (by constructor <;> norm_num)]
  rfl

/-- The rounded spec height at the 4x3 counterexample: `round(3/4) = 1`. -/
theorem specRoundHeight_one_four_three : specRoundHeight 1 4 3 = 1 := by
  unfold specRoundHeight
  rw [round_eq, show (((3:ℕ):ℚ) * ((1:ℤ):ℚ) / ((4:ℕ):ℚ) + 1/2) = 5/4 by push_cast; norm_num]
  exact Int.floor_eq_iff.mpr (by constructor <;> norm_num)

/-- The 41x41 counterexample: `fl32(1/41) = 13094412 / 2^29`, and
`fl32(fl32(1/41) * 41) = (2^24 - 1) / 2^24 < 1`, which truncates to 0 even
though the exact ratio is 1. -/
theorem output_height_one_41_41 : output_height 1 41 41 = 0 := by
  have r1 : round32 ((1:ℤ):ℚ) = 1 := by
    have := round32_natCast_small 1 (by norm_num) (by norm_num)
    simpa using this
  have r41 : round32 ((41:ℕ):ℚ) = 41 := by
    have := round32_natCast_small 41 (by norm_num) (by norm_num)
    simpa using this
  have rq : round32 ((1:ℚ)/41) = 13094412 * (2:ℚ) ^ (-29 : ℤ) := by
    rw [round32_eq_of_bracket ((1:ℚ)/41) (-6) (by norm_num) (by norm_num)]
    rw [show ((1:ℚ)/41) / 2 ^ (-6 - 23 : ℤ) = 536870912/41 by norm_num]
    have hfl : ⌊(536870912/41 : ℚ)⌋ = 13094412 :=
      Int.floor_eq_iff.mpr (by constructor <;> norm_num)
    have hrne : rne (536870912/41 : ℚ) = 13094412 := by
      unfold rne
      rw [hfl, if_pos (by norm_num)]
    rw [hrne]
    norm_num
  have rp : round32 (13094412 * (2:ℚ) ^ (-29 : ℤ) * 41) = 16777215 * (2:ℚ) ^ (-24 : ℤ) := by
    have hval : (13094412 : ℚ) * (2:ℚ) ^ (-29 : ℤ) * 41 = 536870892/536870912 := by
      rw [zpow_neg, show ((29:ℤ)) = ((29:ℕ):ℤ) by norm_num, zpow_natCast]
      norm_num
    rw [hval, round32_eq_of_bracket (536870892/536870912 : ℚ) (-1) (by norm_num) (by norm_num)]
    rw [show ((536870892:ℚ)/536870912) / 2 ^ (-1 - 23 : ℤ) = 536870892/32 by norm_num]
    have hfl : ⌊(536870892/32 : ℚ)⌋ = 16777215 :=
      Int.floor_eq_iff.mpr (by constructor <;> norm_num)
    have hrne : rne (536870892/32 : ℚ) = 16777215 := by
      unfold rne
      rw [hfl, if_pos (by norm_num)]
    rw [hrne]
    norm_num
  unfold output_height scaling_factor
  rw [r1, r41, show ((1:ℚ)) / 41 = (1:ℚ)/41 from rfl, rq, rp]
  rw [Int.floor_eq_zero_iff.mpr (by
    constructor
    · positivity
    · rw [zpow_neg, show ((24:ℤ)) = ((24:ℕ):ℤ) by norm_num, zpow_natCast]
      norm_num)]
  rfl

/-! The claim theorems. -/

/-- C1: with the clipboard open, no bitmap present and
`test_clipboard_has_bitmap=false`, the program does print an error whose text
contains "No bitmap on clipboard", but the exit status is read from the local
`hr` that was never assigned on this path (clippy.cpp:178, 203-207, 330): if
the residual value happens to be a success code the process exits 0, and only
if it happens to be a failure code does it exit 1. This contradicts the
comment at clippy.cpp:329-330 ("Returns 0 if file written to disk, 1 if an
error occurred"). -/
theorem no_bitmap_message_but_residual_exit :
    clippyMain argsDefault envNoBitmap =
      (0, ["No bitmap on clipboard: HRESULT = 0x80004005"],
       [Event.openClipboard, Event.closeClipboard]) ∧
    (clippyMain argsDefault envNoBitmapNeg).1 = 1 := by
  decide

/-- C2 counterexample: for a 4x3 source bitmap and `max_width=1` the source
computes output height `(UINT)(0.25f * 3) = 0` (the single-precision
arithmetic is exact at this input), while the claimed
`round(H * max_width / W) = round(3/4) = 1`. Moreover for a 41x41 source and
`max_width=1` the height is again 0 — `fl32(1/41) * 41 = 1 - 2^-24` truncates
to 0 — although the exact ratio `41 * 1 / 41` is exactly 1, so the computed
height is not even `floor(H * max_width / W)` in general. -/
theorem resized_height_truncates_not_rounds :
    ((resizedDims 1 4 3).2 : Int) ≠ specRoundHeight 1 4 3 ∧
    (resizedDims 1 4 3).2 = 0 ∧ specRoundHeight 1 4 3 = 1 ∧
    (resizedDims 1 41 41).2 = 0 := by
  have h1 : (resizedDims 1 4 3).2 = 0 := output_height_one_four_three
  have h2 : specRoundHeight 1 4 3 = 1 := specRoundHeight_one_four_three
  exact ⟨by rw [h1, h2]; decide, h1, h2, output_height_one_41_41⟩

/-- C2 amended: for positive `max_width` in the `int` range and a source of
positive width `W`, the resized output width is exactly `max_width`, and the
resized output height is the truncation toward zero of the single-precision
computation `fl32(fl32(max_width)/fl32(W)) * fl32(H)`, which lies within a
relative error of `2^-21` of the exact ratio `H * max_width / W` but need not
equal its rounding (nor its floor). -/
theorem resized_height_within_float_error (mw W H : ℕ) (hW : 0 < W)
    (hmw : 0 < mw) (hlt : mw < 2 ^ 31) :
    (resizedDims (mw : Int) W H).1 = mw ∧
    ((resizedDims (mw : Int) W H).2 : ℚ) ≤ (mw * H : ℚ) / W * (1 + 1/2^21) ∧
    (mw * H : ℚ) / W * (1 - 1/2^21) - 1 < ((resizedDims (mw : Int) W H).2 : ℚ) := by
  refine ⟨?_, ?_, ?_⟩
  · show toUINT (mw : Int) = mw
    unfold toUINT
    rw [Int.emod_eq_of_lt (by positivity)
      (by exact_mod_cast lt_trans hlt (by norm_num))]
    exact Int.toNat_natCast mw
  · by_cases hH : 0 < H
    · have hb := (float_height_bounds mw W H hmw hW hH).2
      show ((output_height (mw : Int) W H : ℕ) : ℚ) ≤ _
      unfold output_height
      have hnn : 0 ≤ round32 (scaling_factor (mw : Int) W * round32 (H : ℚ)) :=
        round32_nonneg _
      rw [show (((⌊round32 (scaling_factor (mw : Int) W * round32 (H : ℚ))⌋).toNat : ℕ) : ℚ) =
          ((⌊round32 (scaling_factor (mw : Int) W * round32 (H : ℚ))⌋ : ℤ) : ℚ) by
        exact_mod_cast congrArg (fun z => ((z : ℤ) : ℚ))
          (Int.toNat_of_nonneg (Int.floor_nonneg.mpr hnn))]
      calc ((⌊round32 (scaling_factor (mw : Int) W * round32 (H : ℚ))⌋ : ℤ) : ℚ)
          ≤ round32 (scaling_factor (mw : Int) W * round32 (H : ℚ)) := Int.floor_le _
        _ ≤ (mw * H : ℚ) / W * (1 + 1/2^21) := hb
    · have h0 : H = 0 := by omega
      subst h0
      have hz : output_height (mw : Int) W 0 = 0 := output_height_of_height_zero _ _
      rw [show (resizedDims (mw : Int) W 0).2 = output_height (mw : Int) W 0 from rfl, hz]
      norm_num
  · by_cases hH : 0 < H
    · have hb := (float_height_bounds mw W H hmw hW hH).1
      show _ < ((output_height (mw : Int) W H : ℕ) : ℚ)
      unfold output_height
      have hnn : 0 ≤ round32 (scaling_factor (mw : Int) W * round32 (H : ℚ)) :=
        round32_nonneg _
      rw [show (((⌊round32 (scaling_factor (mw : Int) W * round32 (H : ℚ))⌋).toNat : ℕ) : ℚ) =
          ((⌊round32 (scaling_factor (mw : Int) W * round32 (H : ℚ))⌋ : ℤ) : ℚ) by
        exact_mod_cast congrArg (fun z => ((z : ℤ) : ℚ))
          (Int.toNat_of_nonneg (Int.floor_nonneg.mpr hnn))]
      have hfl := Int.lt_floor_add_one (round32 (scaling_factor (mw : Int) W * round32 (H : ℚ)))
      linarith
    · have h0 : H = 0 := by omega
      subst h0
      have hz : output_height (mw : Int) W 0 = 0 := output_height_of_height_zero _ _
      rw [show (resizedDims (mw : Int) W 0).2 = output_height (mw : Int) W 0 from rfl, hz]
      norm_num

/-- Witness for `resized_height_within_float_error` at the example of spec.md
section 8: `max_width=400`, source 1600x1200. -/
theorem resized_height_within_float_error_witness :
    0 < 1600 ∧ 0 < 400 ∧ 400 < 2 ^ 31 ∧
    ((resizedDims ((400 : ℕ) : Int) 1600 1200).1 = 400 ∧
     ((resizedDims ((400 : ℕ) : Int) 1600 1200).2 : ℚ) ≤
       ((400 : ℕ) * (1200 : ℕ) : ℚ) / ((1600 : ℕ) : ℚ) * (1 + 1/2^21) ∧
     ((400 : ℕ) * (1200 : ℕ) : ℚ) / ((1600 : ℕ) : ℚ) * (1 - 1/2^21) - 1 <
       ((resizedDims ((400 : ℕ) : Int) 1600 1200).2 : ℚ)) :=
  ⟨by decide, by decide, by decide,
    resized_height_within_float_error 400 1600 1200 (by decide) (by decide) (by decide)⟩

/-- C3: in probe mode with a successfully opened clipboard, `main` returns at
clippy.cpp:199 without ever reaching the `CloseClipboard` call at
clippy.cpp:327: the successful open is balanced by zero releases, not one,
contradicting the comment at clippy.cpp:184-185 ("A successful call must be
balanced by a call to CloseClipboard()"). -/
theorem probe_mode_leaves_clipboard_open :
    (clippyMain argsProbe envSuccess).2.2.count Event.openClipboard = 1 ∧
    (clippyMain argsProbe envSuccess).2.2.count Event.closeClipboard = 0 ∧
    (clippyMain argsProbe envSuccess).1 = 0 := by
  decide

/-- C4: on a fully successful run the WIC bitmap created from the clipboard
HBITMAP (clippy.cpp:241) is never released: the `FreeCOM` epilogue of `main`
(clippy.cpp:308-323) frees only the scaler and the factory, contradicting its
own comment "Free all COM interfaces that have been assigned". Moreover,
inside `WriteBitmapToDisk` the creation order is encoder, stream, frame, but
the release order is stream, frame, encoder (clippy.cpp:138-152) — not the
reverse of the creation order. -/
theorem wic_bitmap_never_released :
    (clippyMain argsDefault envSuccess).2.2.count Event.createBitmap = 1 ∧
    (clippyMain argsDefault envSuccess).2.2.count Event.releaseBitmap = 0 ∧
    (clippyMain argsDefault envSuccess).1 = 0 ∧
    (writeBitmapToDisk "f" ContainerFormat.png 10 10 wEnvOK).2.2 =
      [Event.createEncoder ContainerFormat.png, Event.createStream,
       Event.initStreamFromFile "f", Event.createFrame, Event.setFrameSize 10 10,
       Event.releaseStream, Event.releaseFrame, Event.releaseEncoder] := by
  decide

/-- C5 counterexample: for a 4x3 source bitmap and the accepted command-line
value `max_width=1`, the computed output height is 0 — not a positive
integer. -/
theorem resized_height_zero_not_positive :
    (resizedDims 1 4 3).2 = 0 ∧ ¬ 0 < (resizedDims 1 4 3).2 := by
  have h := output_height_one_four_three
  exact ⟨h, by rw [show (resizedDims 1 4 3).2 = output_height 1 4 3 from rfl, h]; decide⟩

/-- C5 amended: for positive `max_width` in the `int` range and a source of
positive width, the computed output width is always positive (it equals
`max_width`), but the output height is not: it is positive whenever
`W ≤ max_width * H * (1 - 2^-21)`, and zero whenever
`max_width * H * (1 + 2^-21) < W` — in particular zero when the exact ratio
is below 1, as at `max_width=1`, W=4, H=3. -/
theorem resized_dims_positivity (mw W H : ℕ) (hW : 0 < W) (hmw : 0 < mw)
    (hlt : mw < 2 ^ 31) :
    0 < (resizedDims (mw : Int) W H).1 ∧
    ((W : ℚ) ≤ (mw * H : ℚ) * (1 - 1/2^21) → 0 < (resizedDims (mw : Int) W H).2) ∧
    ((mw * H : ℚ) * (1 + 1/2^21) < W → (resizedDims (mw : Int) W H).2 = 0) := by
  have hWQ : (0:ℚ) < (W:ℚ) := by exact_mod_cast hW
  refine ⟨?_, ?_, ?_⟩
  · show 0 < toUINT (mw : Int)
    unfold toUINT
    rw [Int.emod_eq_of_lt (by positivity)
      (by exact_mod_cast lt_trans hlt (by norm_num))]
    rw [Int.toNat_natCast]
    exact hmw
  · intro hcond
    have hH : 0 < H := by
      rcases Nat.eq_zero_or_pos H with h0 | h0
      · subst h0
        rw [show ((mw : ℚ) * (0:ℕ) : ℚ) = 0 by push_cast; ring] at hcond
        simp at hcond
        linarith
      · exact h0
    have hb := (float_height_bounds mw W H hmw hW hH).1
    have hone : (1:ℚ) ≤ round32 (scaling_factor (mw : Int) W * round32 (H : ℚ)) := by
      have hX : (1:ℚ) ≤ (mw * H : ℚ) / W * (1 - 1/2^21) := by
        rw [div_mul_eq_mul_div, le_div_iff₀ hWQ]
        linarith
      linarith
    show 0 < output_height (mw : Int) W H
    unfold output_height
    have : (1:ℤ) ≤ ⌊round32 (scaling_factor (mw : Int) W * round32 (H : ℚ))⌋ :=
      Int.le_floor.mpr (by exact_mod_cast hone)
    omega
  · intro hcond
    show output_height (mw : Int) W H = 0
    rcases Nat.eq_zero_or_pos H with h0 | hH
    · subst h0
      exact output_height_of_height_zero _ _
    · have hb := (float_height_bounds mw W H hmw hW hH).2
      have hnn : 0 ≤ round32 (scaling_factor (mw : Int) W * round32 (H : ℚ)) :=
        round32_nonneg _
      have hlt1 : round32 (scaling_factor (mw : Int) W * round32 (H : ℚ)) < 1 := by
        have hX : (mw * H : ℚ) / W * (1 + 1/2^21) < 1 := by
          rw [div_mul_eq_mul_div, div_lt_iff₀ hWQ]
          linarith
        linarith
      unfold output_height
      rw [Int.floor_eq_zero_iff.mpr ⟨hnn, hlt1⟩]
      rfl

/-- Witness for `resized_dims_positivity` at `max_width=800`, source
1600x1200: the output height 600 is positive. -/
theorem resized_dims_positivity_witness :
    0 < 1600 ∧ 0 < 800 ∧ 800 < 2 ^ 31 ∧
    0 < (resizedDims ((800 : ℕ) : Int) 1600 1200).1 ∧
    0 < (resizedDims ((800 : ℕ) : Int) 1600 1200).2 := by
  have h := resized_dims_positivity 800 1600 1200 (by decide) (by decide) (by decide)
  refine ⟨by decide, by decide, by decide, h.1, h.2.1 ?_⟩
  push_cast
  norm_num

/-- C7: in probe mode with a successfully opened clipboard, the run prints the
single literal `TRUE` and exits 0 when a bitmap is present, and the single
literal `FALSE` and exits 0 when not (clippy.cpp:196-200). -/
theorem probe_mode_prints_bool_and_exits_zero (args : Args) (env : Env)
    (ht : args.test_clipboard_has_bitmap = true)
    (ho : env.openClipboardOk = true) :
    (env.hasBitmap = true →
      clippyMain args env = (0, ["TRUE"], [Event.openClipboard])) ∧
    (env.hasBitmap = false →
      clippyMain args env = (0, ["FALSE"], [Event.openClipboard])) := by
  constructor <;> intro hbm <;> simp [clippyMain, ht, ho, hbm]

/-- Witness for `probe_mode_prints_bool_and_exits_zero` with a bitmap
present. -/
theorem probe_mode_prints_bool_and_exits_zero_witness :
    argsProbe.test_clipboard_has_bitmap = true ∧
    envSuccess.openClipboardOk = true ∧ envSuccess.hasBitmap = true ∧
    clippyMain argsProbe envSuccess = (0, ["TRUE"], [Event.openClipboard]) :=
  ⟨rfl, rfl, rfl,
    (probe_mode_prints_bool_and_exits_zero argsProbe envSuccess rfl rfl).1 rfl⟩

/-- C8: the encoder string "png" selects the PNG container, "jpeg" selects the
JPEG container, any other string also selects the JPEG container (no
validation, clippy.cpp:175), and the output file extension is always the
literal encoder string appended after a dot (clippy.cpp:263, 301). -/
theorem encoder_selection_and_extension (e : String) :
    encoderIdOf "png" = ContainerFormat.png ∧
    encoderIdOf "jpeg" = ContainerFormat.jpeg ∧
    (e ≠ "png" → encoderIdOf e = ContainerFormat.jpeg) ∧
    (∀ f : String, resizedFilename f e = f ++ "." ++ e ∧
      fullFilename f e = f ++ "_full." ++ e) := by
  refine ⟨rfl, by decide, ?_, fun f => ⟨rfl, rfl⟩⟩
  intro h
  simp [encoderIdOf, h]

/-- Witness for `encoder_selection_and_extension` at the unvalidated encoder
string "gif". -/
theorem encoder_selection_and_extension_witness :
    ("gif" : String) ≠ "png" ∧ encoderIdOf "gif" = ContainerFormat.jpeg ∧
    resizedFilename "image" "gif" = "image" ++ "." ++ "gif" :=
  ⟨by decide, (encoder_selection_and_extension "gif").2.2.1 (by decide),
    ((encoder_selection_and_extension "gif").2.2.2 "image").1⟩

/-- C9: whenever the run reaches the scaler (bitmap present, non-probe mode,
preceding calls succeed, the optional full-size write not failing), the scaler
`Initialize` call executes at width exactly `max_width` (as `UINT`) — with no
hypothesis relating the source width to `max_width`, so scaling also executes
when the source is already at or below the target width, upscaling it. -/
theorem scaling_always_executes (args : Args) (env : Env)
    (ht : args.test_clipboard_has_bitmap = false)
    (ho : env.openClipboardOk = true)
    (hb : env.hasBitmap = true)
    (hco : FAILED env.coInitHr = false)
    (hfa : FAILED env.createFactoryHr = false)
    (hcb : FAILED env.createBitmapHr = false)
    (hgs : FAILED env.getSizeHr = false)
    (hfw : args.write_full = true → FAILED (fullWriteResult args env).1 = false)
    (hsc : FAILED env.createScalerHr = false) :
    Event.initScaler (toUINT args.max_width)
      (output_height args.max_width env.width env.height) ∈
      (clippyMain args env).2.2 := by
  by_cases hwf : args.write_full = true
  · have hfw' := hfw hwf
    simp only [clippyMain, ht, ho, hb, hco, hfa, hcb, hgs, hwf, hfw',
      Bool.not_true, Bool.false_eq_true, if_false, if_true]
    exact initScaler_mem_resizedPhase args env _ _ hsc
  · have hwf' : args.write_full = false := by simpa using hwf
    simp only [clippyMain, ht, ho, hb, hco, hfa, hcb, hgs, hwf',
      Bool.not_true, Bool.false_eq_true, if_false, if_true]
    exact initScaler_mem_resizedPhase args env _ _ hsc

/-- Witness for `scaling_always_executes` on a 100x50 source already narrower
than `max_width=800`: the scaler still runs, at width 800 (an upscale). -/
theorem scaling_always_executes_witness :
    envUpscale.width ≤ 800 ∧
    Event.initScaler (toUINT argsDefault.max_width)
      (output_height argsDefault.max_width envUpscale.width envUpscale.height) ∈
      (clippyMain argsDefault envUpscale).2.2 :=
  ⟨by decide,
    scaling_always_executes argsDefault envUpscale rfl rfl rfl (by decide)
      (by decide) (by decide) (by decide) (by decide) (by decide)⟩

/-- C10: in probe mode the run never initializes COM, never creates any WIC
object (factory, bitmap, scaler, encoder, stream, frame), and never binds a
stream to a file, regardless of the other flags and of whether the clipboard
opened: `main` returns directly at clippy.cpp:199 before any of those calls
(clippy.cpp:209-218 onward). -/
theorem probe_mode_no_com_no_files (args : Args) (env : Env)
    (ht : args.test_clipboard_has_bitmap = true) :
    Event.coInit ∉ (clippyMain args env).2.2 ∧
    Event.createFactory ∉ (clippyMain args env).2.2 ∧
    Event.createBitmap ∉ (clippyMain args env).2.2 ∧
    Event.createScaler ∉ (clippyMain args env).2.2 ∧
    Event.createStream ∉ (clippyMain args env).2.2 ∧
    Event.createFrame ∉ (clippyMain args env).2.2 ∧
    (∀ f : String, Event.initStreamFromFile f ∉ (clippyMain args env).2.2) ∧
    (∀ fmt : ContainerFormat, Event.createEncoder fmt ∉ (clippyMain args env).2.2) := by
  rcases Bool.eq_false_or_eq_true env.openClipboardOk with ho | ho <;>
    simp [clippyMain, ht, ho]

/-- Witness for `probe_mode_no_com_no_files`: the default probe invocation
initializes no COM. -/
theorem probe_mode_no_com_no_files_witness :
    argsProbe.test_clipboard_has_bitmap = true ∧
    Event.coInit ∉ (clippyMain argsProbe envSuccess).2.2 :=
  ⟨rfl, (probe_mode_no_com_no_files argsProbe envSuccess rfl).1⟩

end Clippy
